import Mathlib

/-!
Shallow embedding of the two core fragments of the repository:

* the missing-library registry writer
  (`src/packages/hardhat-zksync-ethers/src/constants.ts`,
  `getOrCreateLibraries` lines 188-196 and `writeLibrariesToFile`
  lines 199-212), modelled as a state machine over a single registry
  path together with a trace of the filesystem and lock operations the
  call performs;

* the balance-delta calculator
  (`src/unnamed/part_000`, `getBalanceChanges` lines 79-96 and
  `getTxFees` lines 98-120), modelled as pure functions over an
  abstract ledger-snapshot reader.
-/

namespace HardhatZkSync

/-- A missing-library record, the element type of the registry file
(`MissingLibrary` in `types.ts`): contract name, contract path, and the
fully qualified libraries it still needs linked. -/
structure MissingLibrary where
  contractName : String
  contractPath : String
  missingLibraries : List String
deriving DecidableEq, Repr

/-- Content of the registry file as the JSON reader sees it: either a
valid JSON array of records, or bytes that do not parse as a JSON
array (`fse.readJSON` throws on them). -/
inductive FileData where
  | jsonArr (recs : List MissingLibrary)
  | corrupt (raw : String)
deriving DecidableEq, Repr

/-- State of the world at the registry path: the file's content (none
when the file does not exist) and whether this call holds the advisory
lock of `proper-lockfile`. -/
structure St where
  file : Option FileData
  lockHeld : Bool
deriving DecidableEq, Repr

/-- Primitive filesystem and lock operations, recorded as a trace so
that the shape of a call (which paths are written, whether a rename
happens, when the lock is taken and released) is observable. -/
inductive FsEvent where
  | checkExists (p : String)
  | write (p : String) (d : FileData)
  | readJson (p : String)
  | lockAcq (p : String)
  | lockRel (p : String)
  | rename (src dst : String)
deriving DecidableEq, Repr

/-- Errors of the embedded code: `fse` I/O errors, a JSON parse
failure from `fse.readJSON`, the lock-acquisition failure thrown by
`proper-lockfile` once its retry budget (10 retries, maxTimeout 1000ms)
is exhausted, the error `proper-lockfile.unlock` throws when the lock
is not acquired, and `ZkSyncSolcPluginError`, the single error class
the catch block of `writeLibrariesToFile` throws wrapping the
underlying cause (the cause is interpolated into its message string;
the `cause` argument here models that message content). -/
inductive JsError where
  | ioError
  | jsonParse
  | lockContention
  | notAcquired
  | zkSyncSolcPlugin (cause : JsError)
deriving DecidableEq, Repr

/-- Result of running a fallible operation: its value or error, the
state after it, and the trace of primitive operations it performed. -/
structure Outcome (α : Type) where
  res : Except JsError α
  st : St
  trace : List FsEvent

/-- `fse.pathExists(filePath)`. -/
def fsePathExists (p : String) (s : St) : Bool × St × List FsEvent :=
  (s.file.isSome, s, [FsEvent.checkExists p])

/-- `fse.outputFile` / `fse.outputFileSync`: (over)write the file. -/
def fseOutputFile (p : String) (d : FileData) (s : St) : St × List FsEvent :=
  ({ s with file := some d }, [FsEvent.write p d])

/-- `fse.readJSON(filePath)`: throws on a missing file or on content
that is not valid JSON. -/
def fseReadJSON (p : String) (s : St) : Outcome (List MissingLibrary) :=
  match s.file with
  | none => ⟨Except.error JsError.ioError, s, [FsEvent.readJson p]⟩
  | some (FileData.jsonArr recs) => ⟨Except.ok recs, s, [FsEvent.readJson p]⟩
  | some (FileData.corrupt _) => ⟨Except.error JsError.jsonParse, s, [FsEvent.readJson p]⟩

/-- `lockfile.lock(filePath, { retries: { retries: 10, maxTimeout: 1000 } })`.
`contended` says whether another process keeps the lock for the whole
retry budget, in which case the call throws. -/
def lockfileLock (p : String) (contended : Bool) (s : St) : Outcome Unit :=
  if contended then ⟨Except.error JsError.lockContention, s, [FsEvent.lockAcq p]⟩
  else ⟨Except.ok (), { s with lockHeld := true }, [FsEvent.lockAcq p]⟩

/-- `lockfile.unlock(filePath)`: releases the lock when held, throws
its not-acquired error when this call never acquired it. -/
def lockfileUnlock (p : String) (s : St) : Outcome Unit :=
  if s.lockHeld then ⟨Except.ok (), { s with lockHeld := false }, [FsEvent.lockRel p]⟩
  else ⟨Except.error JsError.notAcquired, s, [FsEvent.lockRel p]⟩

/-- `getOrCreateLibraries` (constants.ts lines 188-196): if the file
does not exist, create it containing `[]`; then read and parse it.
This is the code's carrier of the spec's `ensureExists`. -/
def getOrCreateLibraries (p : String) (s : St) : Outcome (List MissingLibrary) :=
  let (ex, s1, t1) := fsePathExists p s
  if ex then
    let o := fseReadJSON p s1
    ⟨o.res, o.st, t1 ++ o.trace⟩
  else
    let (s2, t2) := fseOutputFile p (FileData.jsonArr []) s1
    let o := fseReadJSON p s2
    ⟨o.res, o.st, t1 ++ t2 ++ o.trace⟩

/-- Environment step: a concurrent process may overwrite the file
while this call is between its pre-lock read and its lock acquisition
(the window the in-lock re-read exists to cover). `none` means no
interference. -/
def applyInterference (interfere : Option FileData) (s : St) : St :=
  match interfere with
  | none => s
  | some d => { s with file := some d }

/-- The try block of `writeLibrariesToFile` (constants.ts lines
200-206): pre-lock `getOrCreateLibraries` (result discarded), lock,
re-read via `getOrCreateLibraries`, concatenate the existing array
with `libraries`, and `outputFileSync` the combined array to the
target path. -/
def writeLibrariesTry (p : String) (libraries : List MissingLibrary)
    (contended : Bool) (interfere : Option FileData) (s : St) : Outcome Unit :=
  match getOrCreateLibraries p s with
  | ⟨Except.error e, s1, t1⟩ => ⟨Except.error e, s1, t1⟩
  | ⟨Except.ok _, s1, t1⟩ =>
    let s1i := applyInterference interfere s1
    match lockfileLock p contended s1i with
    | ⟨Except.error e, s2, t2⟩ => ⟨Except.error e, s2, t1 ++ t2⟩
    | ⟨Except.ok _, s2, t2⟩ =>
      match getOrCreateLibraries p s2 with
      | ⟨Except.error e, s3, t3⟩ => ⟨Except.error e, s3, t1 ++ t2 ++ t3⟩
      | ⟨Except.ok existingLibraries, s3, t3⟩ =>
        let combinedLibraries := existingLibraries ++ libraries
        let (s4, t4) := fseOutputFile p (FileData.jsonArr combinedLibraries) s3
        ⟨Except.ok (), s4, t1 ++ t2 ++ t3 ++ t4⟩

/-- `writeLibrariesToFile` (constants.ts lines 199-212): run the try
block; a thrown error is caught and rethrown wrapped as
`ZkSyncSolcPluginError`; the finally block then unconditionally calls
`lockfile.unlock(filePath)`, and per JavaScript semantics an error
thrown in the finally block replaces whatever the try/catch was about
to return or throw. -/
def writeLibrariesToFile (p : String) (libraries : List MissingLibrary)
    (contended : Bool) (interfere : Option FileData) (s : St) : Outcome Unit :=
  let o := writeLibrariesTry p libraries contended interfere s
  let caught : Except JsError Unit :=
    match o.res with
    | Except.ok _ => Except.ok ()
    | Except.error e => Except.error (JsError.zkSyncSolcPlugin e)
  let u := lockfileUnlock p o.st
  let final : Except JsError Unit :=
    match u.res with
    | Except.ok _ => caught
    | Except.error e => Except.error e
  ⟨final, u.st, o.trace ++ u.trace⟩

/-- Event classifier: is this event a rename? -/
def FsEvent.isRename : FsEvent → Bool
  | FsEvent.rename _ _ => true
  | _ => false

/-- Event classifier: is this event a file write? -/
def FsEvent.isWrite : FsEvent → Bool
  | FsEvent.write _ _ => true
  | _ => false

/-- Event classifier: is this event a lock acquisition attempt? -/
def FsEvent.isLockAcq : FsEvent → Bool
  | FsEvent.lockAcq _ => true
  | _ => false

/-- Event classifier: is this event a lock release attempt? -/
def FsEvent.isLockRel : FsEvent → Bool
  | FsEvent.lockRel _ => true
  | _ => false

/-- The mined transaction as `getTxFees` consults it: `txResponse.from`
(the sender; `from` is a Lean keyword, hence the field name `sender`)
and `txResponse.gasPrice`, the gas price the transaction declared. -/
structure TxResponse where
  sender : String
  gasPrice : Int
deriving DecidableEq, Repr

/-- The receipt `txResponse.wait()` resolves to: block number, gas
used, and `txReceipt.gasPrice` (the effective gas price), which the
source guards with `?? txResponse.gasPrice` and so may be absent. -/
structure TxReceipt where
  blockNumber : Int
  gasUsed : Int
  gasPrice : Option Int
deriving DecidableEq, Repr

/-- The gas-price selection of `getTxFees` (part_000 lines 108-110):
`overrides?.maxFeePerGas ? overrides?.maxFeePerGas : txReceipt.gasPrice ?? txResponse.gasPrice`.
JavaScript truthiness makes an absent or zero `maxFeePerGas` falsy, so
the override is used only when supplied and nonzero; otherwise the
receipt's gas price when present, otherwise the transaction's. -/
def selectGasPrice (maxFeePerGas receiptGasPrice : Option Int) (txGasPrice : Int) : Int :=
  match maxFeePerGas with
  | some v => if v = 0 then receiptGasPrice.getD txGasPrice else v
  | none => receiptGasPrice.getD txGasPrice

/-- `getTxFees` (part_000 lines 98-120): one entry per account in
order; an account gets the full fee `gasPrice * gasUsed` exactly on
the branch `options?.includeFee !== true && getAddressOf(account) === txResponse.from`,
and `0n` otherwise. Accounts are modelled by their resolved addresses
(`getAddressOf`, from a file not under src/, resolves an account to
its address string). -/
def getTxFees (accounts : List String) (txResponse : TxResponse) (txReceipt : TxReceipt)
    (includeFee : Option Bool) (maxFeePerGas : Option Int) : List Int :=
  accounts.map fun account =>
    if includeFee ≠ some true ∧ account = txResponse.sender then
      selectGasPrice maxFeePerGas txReceipt.gasPrice txResponse.gasPrice * txReceipt.gasUsed
    else 0

/-- Modelled from the spec: `getBalances` lives in `misc/balance.ts`,
which is not under src/; the spec describes it as sampling, for each
account in order, the external ledger-snapshot reader
`getBalance(address, blockHeight)` at the given height. The reader is
passed in as the function `getBalance`. -/
def getBalances (getBalance : String → Int → Int) (accounts : List String)
    (blockNumber : Int) : List Int :=
  accounts.map fun account => getBalance account blockNumber

/-- `getBalanceChanges` (part_000 lines 79-96): with
`txBlockNumber = txReceipt.blockNumber`, sample balances at
`txBlockNumber` and `txBlockNumber - 1`, compute the fees, and return
`balancesAfter.map((balance, ind) => balance + txFees[ind] - balancesBefore[ind])`. -/
def getBalanceChanges (getBalance : String → Int → Int) (accounts : List String)
    (txResponse : TxResponse) (txReceipt : TxReceipt)
    (includeFee : Option Bool) (maxFeePerGas : Option Int) : List Int :=
  let txBlockNumber := txReceipt.blockNumber
  let balancesAfter := getBalances getBalance accounts txBlockNumber
  let balancesBefore := getBalances getBalance accounts (txBlockNumber - 1)
  let txFees := getTxFees accounts txResponse txReceipt includeFee maxFeePerGas
  List.zipWith (fun x y => x - y)
    (List.zipWith (fun a f => a + f) balancesAfter txFees) balancesBefore

/-- The ledger of the spec's fee-attribution examples: the sampled
account holds 1000 before the transaction's block (height 7) and 950
at it. -/
def exampleBal : String → Int → Int :=
  fun _ h => if h = 7 then 950 else 1000

theorem getBalanceChanges_eq_map (getBalance : String → Int → Int)
    (accounts : List String) (tx : TxResponse) (rc : TxReceipt)
    (incl : Option Bool) (ovr : Option Int) :
    getBalanceChanges getBalance accounts tx rc incl ovr =
      accounts.map fun a =>
        getBalance a rc.blockNumber +
          (if incl ≠ some true ∧ a = tx.sender then
            selectGasPrice ovr rc.gasPrice tx.gasPrice * rc.gasUsed
          else 0) - getBalance a (rc.blockNumber - 1) := by
  induction accounts with
  | nil => rfl
  | cons a rest ih =>
    simp only [getBalanceChanges, getBalances, getTxFees, List.map_cons,
      List.zipWith_cons_cons, List.map] at ih ⊢
    exact congrArg _ ih

/-- C1: the claim says every `writeLibrariesToFile` call writes the
new JSON to a temporary path and renames it over the target. On a
concrete call the trace contains no rename at all, and the combined
content is written directly to the target path. -/
theorem C1_counterexample :
    ((writeLibrariesToFile "l" [⟨"N", "p.sol", []⟩] false none
        ⟨some (FileData.jsonArr []), false⟩).trace.filter FsEvent.isRename) = [] ∧
    FsEvent.write "l" (FileData.jsonArr [⟨"N", "p.sol", []⟩]) ∈
      (writeLibrariesToFile "l" [⟨"N", "p.sol", []⟩] false none
        ⟨some (FileData.jsonArr []), false⟩).trace := by
  exact ⟨rfl, by decide⟩

/-- C1 amended: every successful append performs no rename and exactly
one write, and that write targets the registry path itself with the
combined array (`fse.outputFileSync(filePath, ...)` is a direct
in-place write; the temp-then-rename pattern exists only in the
repository's `download` helper, not here). -/
theorem C1_direct_write (p : String) (E libs : List MissingLibrary) :
    ((writeLibrariesToFile p libs false none
        ⟨some (FileData.jsonArr E), false⟩).trace.filter FsEvent.isRename) = [] ∧
    ((writeLibrariesToFile p libs false none
        ⟨some (FileData.jsonArr E), false⟩).trace.filter FsEvent.isWrite) =
      [FsEvent.write p (FileData.jsonArr (E ++ libs))] := by
  exact ⟨rfl, rfl⟩

/-- C2: `getBalanceChanges` returns one signed delta per account in
the same order, and the delta at index `i` is the balance at the
receipt's block number minus the balance at that block number minus
one, plus the fee contribution at index `i`. -/
theorem C2_delta_per_account (getBalance : String → Int → Int)
    (accounts : List String) (tx : TxResponse) (rc : TxReceipt)
    (incl : Option Bool) (ovr : Option Int) :
    (getBalanceChanges getBalance accounts tx rc incl ovr).length = accounts.length ∧
    ∀ (i : Nat) (a : String) (f : Int), accounts[i]? = some a →
      (getTxFees accounts tx rc incl ovr)[i]? = some f →
      (getBalanceChanges getBalance accounts tx rc incl ovr)[i]? =
        some (getBalance a rc.blockNumber - getBalance a (rc.blockNumber - 1) + f) := by
  rw [getBalanceChanges_eq_map]
  refine ⟨List.length_map _ _, ?_⟩
  intro i a f ha hf
  simp only [getTxFees, List.getElem?_map, ha, Option.map_some'] at hf
  simp only [List.getElem?_map, ha, Option.map_some', Option.some.injEq] at hf ⊢
  rw [← hf]
  ring

/-- C2 witness: the per-index delta formula evaluated on the spec's
sender example (before 1000, after 950, fee 20: delta -30). -/
theorem C2_delta_per_account_witness :
    (getBalanceChanges exampleBal ["S"] ⟨"S", 5⟩ ⟨7, 4, some 5⟩ none none).length = 1 ∧
    (getBalanceChanges exampleBal ["S"] ⟨"S", 5⟩ ⟨7, 4, some 5⟩ none none)[0]? =
      some (exampleBal "S" 7 - exampleBal "S" 6 + 20) :=
  ⟨(C2_delta_per_account exampleBal ["S"] ⟨"S", 5⟩ ⟨7, 4, some 5⟩ none none).1,
   (C2_delta_per_account exampleBal ["S"] ⟨"S", 5⟩ ⟨7, 4, some 5⟩ none none).2
      0 "S" 20 rfl (by decide)⟩

/-- C3: the fee contribution is the full fee exactly when the account
is the sender and `includeFee` is not explicitly true: every
non-sender account gets zero; with `includeFee = true` even the sender
gets zero; the sender under default options gets
`selectGasPrice ... * gasUsed`; and on the spec's numbers (before
1000, after 950, fee 20) the sender delta is -30 by default and -50
with `includeFee: true`. -/
theorem C3_fee_attribution :
    (∀ (accounts : List String) (tx : TxResponse) (rc : TxReceipt)
        (incl : Option Bool) (ovr : Option Int) (i : Nat) (a : String),
      accounts[i]? = some a → a ≠ tx.sender →
      (getTxFees accounts tx rc incl ovr)[i]? = some 0) ∧
    (∀ (accounts : List String) (tx : TxResponse) (rc : TxReceipt)
        (ovr : Option Int) (i : Nat) (a : String),
      accounts[i]? = some a →
      (getTxFees accounts tx rc (some true) ovr)[i]? = some 0) ∧
    (∀ (accounts : List String) (tx : TxResponse) (rc : TxReceipt)
        (incl : Option Bool) (ovr : Option Int) (i : Nat),
      accounts[i]? = some tx.sender → incl ≠ some true →
      (getTxFees accounts tx rc incl ovr)[i]? =
        some (selectGasPrice ovr rc.gasPrice tx.gasPrice * rc.gasUsed)) ∧
    (getBalanceChanges exampleBal ["S"] ⟨"S", 5⟩ ⟨7, 4, some 5⟩ none none = [-30] ∧
      getBalanceChanges exampleBal ["S"] ⟨"S", 5⟩ ⟨7, 4, some 5⟩ (some true) none = [-50]) := by
  refine ⟨?_, ?_, ?_, by decide, by decide⟩
  · intro accounts tx rc incl ovr i a ha hne
    simp [getTxFees, List.getElem?_map, ha, hne]
  · intro accounts tx rc ovr i a ha
    simp only [getTxFees, List.getElem?_map, ha, Option.map_some', Option.some.injEq]
    simp
  · intro accounts tx rc incl ovr i ha hincl
    simp [getTxFees, List.getElem?_map, ha, hincl]

/-- C3 witness: the three fee-attribution cases at concrete inputs:
a non-sender gets 0, the sender under `includeFee: true` gets 0, and
the sender under default options gets the full fee 20. -/
theorem C3_fee_attribution_witness :
    (getTxFees ["R"] ⟨"S", 5⟩ ⟨7, 4, some 5⟩ none none)[0]? = some 0 ∧
    (getTxFees ["S"] ⟨"S", 5⟩ ⟨7, 4, some 5⟩ (some true) none)[0]? = some 0 ∧
    (getTxFees ["S"] ⟨"S", 5⟩ ⟨7, 4, some 5⟩ none none)[0]? = some 20 :=
  ⟨C3_fee_attribution.1 ["R"] ⟨"S", 5⟩ ⟨7, 4, some 5⟩ none none 0 "R" rfl (by decide),
   C3_fee_attribution.2.1 ["S"] ⟨"S", 5⟩ ⟨7, 4, some 5⟩ none 0 "S" rfl,
   C3_fee_attribution.2.2.1 ["S"] ⟨"S", 5⟩ ⟨7, 4, some 5⟩ none none 0 rfl (by decide)⟩

/-- C4: appending `R` to a registry holding `E` writes exactly
`E ++ R` in order, with no de-duplication (duplicates are preserved
verbatim), and sequential `append [A]` then `append [B]` on a fresh
path yields exactly `[A, B]`. -/
theorem C4_append_order_no_dedup :
    (∀ (p : String) (E R : List MissingLibrary),
      (writeLibrariesToFile p R false none ⟨some (FileData.jsonArr E), false⟩).res =
        Except.ok () ∧
      (writeLibrariesToFile p R false none ⟨some (FileData.jsonArr E), false⟩).st.file =
        some (FileData.jsonArr (E ++ R))) ∧
    (∀ (p : String) (A : MissingLibrary),
      (writeLibrariesToFile p [A] false none ⟨some (FileData.jsonArr [A]), false⟩).st.file =
        some (FileData.jsonArr [A, A])) ∧
    (∀ (p : String) (A B : MissingLibrary),
      (writeLibrariesToFile p [B] false none
          (writeLibrariesToFile p [A] false none ⟨none, false⟩).st).st.file =
        some (FileData.jsonArr [A, B])) :=
  ⟨fun _ _ _ => ⟨rfl, rfl⟩, fun _ _ => rfl, fun _ _ _ => rfl⟩

/-- C5: the claim says a corrupt registry makes the re-read performed
while holding the lock fail with the corrupt-registry error and that
the lock is then released. On a concrete corrupt file the call instead
fails with the unlock primitive's not-acquired error (not the wrapped
parse error), and the trace contains no lock acquisition at all, so no
re-read under the lock ever happens. -/
theorem C5_counterexample :
    (writeLibrariesToFile "l" [⟨"N", "p.sol", []⟩] false none
        ⟨some (FileData.corrupt "not-json"), false⟩).res = Except.error JsError.notAcquired ∧
    Except.error (JsError.zkSyncSolcPlugin JsError.jsonParse) ≠
      (Except.error JsError.notAcquired : Except JsError Unit) ∧
    ((writeLibrariesToFile "l" [⟨"N", "p.sol", []⟩] false none
        ⟨some (FileData.corrupt "not-json"), false⟩).trace.filter FsEvent.isLockAcq) = [] := by
  refine ⟨rfl, ?_, rfl⟩
  intro h
  exact absurd (Except.error.inj h) (by decide)

/-- C5 amended: on a corrupt registry file the pre-lock read (not a
re-read under the lock) fails with the JSON parse error; the catch
wraps it, but the finally block's unconditional unlock of the
never-acquired lock throws and replaces it, so the call fails with the
not-acquired error; the file is left unmodified, no lock is left held,
and the lock was never acquired. -/
theorem C5_prelock_failure_masked (p : String) (libs : List MissingLibrary)
    (raw : String) (c : Bool) (i : Option FileData) :
    writeLibrariesToFile p libs c i ⟨some (FileData.corrupt raw), false⟩ =
      ⟨Except.error JsError.notAcquired, ⟨some (FileData.corrupt raw), false⟩,
        [FsEvent.checkExists p, FsEvent.readJson p, FsEvent.lockRel p]⟩ := rfl

/-- C6: when the read-merge-write steps performed under the lock throw
(here: a concurrent writer corrupts the file after the pre-check, so
the in-lock re-read's parse throws), the call fails with the plugin
error wrapping the underlying cause, and the lock is released on both
the success path and this failure path (final state does not hold the
lock and the last trace event is the release). -/
theorem C6_underlock_failure_wrapped_lock_released :
    (∀ (p : String) (libs E : List MissingLibrary),
      (writeLibrariesToFile p libs false none ⟨some (FileData.jsonArr E), false⟩).res =
        Except.ok () ∧
      (writeLibrariesToFile p libs false none
          ⟨some (FileData.jsonArr E), false⟩).st.lockHeld = false ∧
      (writeLibrariesToFile p libs false none
          ⟨some (FileData.jsonArr E), false⟩).trace.getLast? = some (FsEvent.lockRel p)) ∧
    (∀ (p : String) (libs E : List MissingLibrary) (raw : String),
      (writeLibrariesToFile p libs false (some (FileData.corrupt raw))
          ⟨some (FileData.jsonArr E), false⟩).res =
        Except.error (JsError.zkSyncSolcPlugin JsError.jsonParse) ∧
      (writeLibrariesToFile p libs false (some (FileData.corrupt raw))
          ⟨some (FileData.jsonArr E), false⟩).st.lockHeld = false ∧
      (writeLibrariesToFile p libs false (some (FileData.corrupt raw))
          ⟨some (FileData.jsonArr E), false⟩).trace.getLast? = some (FsEvent.lockRel p)) :=
  ⟨fun _ _ _ => ⟨rfl, rfl, rfl⟩, fun _ _ _ _ => ⟨rfl, rfl, rfl⟩⟩

/-- C7: the claim says the override gas price is used whenever
supplied, including when its supplied value is zero. With a supplied
override of zero, receipt gas price 5 and gas used 1, the sender's fee
is 5, not the 0 the claim requires. -/
theorem C7_counterexample :
    getTxFees ["S"] ⟨"S", 7⟩ ⟨9, 1, some 5⟩ none (some 0) = [5] ∧
    getTxFees ["S"] ⟨"S", 7⟩ ⟨9, 1, some 5⟩ none (some 0) ≠ [0 * 1] := by
  exact ⟨by decide, by decide⟩

/-- C7 amended: the gas price used in the fee is the override exactly
when it is supplied and nonzero (a supplied zero behaves as if no
override were supplied, by JavaScript truthiness); otherwise the
receipt's gas price when present, otherwise the transaction's declared
gas price; and the sender's fee under default options is that selected
price times the gas used. -/
theorem C7_gas_price_selection :
    (∀ (v : Int) (rgp : Option Int) (txgp : Int), v ≠ 0 →
      selectGasPrice (some v) rgp txgp = v) ∧
    (∀ (rgp : Option Int) (txgp : Int),
      selectGasPrice (some 0) rgp txgp = selectGasPrice none rgp txgp) ∧
    (∀ (r txgp : Int), selectGasPrice none (some r) txgp = r) ∧
    (∀ txgp : Int, selectGasPrice none none txgp = txgp) ∧
    (∀ (accounts : List String) (tx : TxResponse) (rc : TxReceipt)
        (incl : Option Bool) (ovr : Option Int) (i : Nat),
      accounts[i]? = some tx.sender → incl ≠ some true →
      (getTxFees accounts tx rc incl ovr)[i]? =
        some (selectGasPrice ovr rc.gasPrice tx.gasPrice * rc.gasUsed)) := by
  refine ⟨?_, fun _ _ => rfl, fun _ _ => rfl, fun _ => rfl, ?_⟩
  · intro v rgp txgp hv
    simp [selectGasPrice, hv]
  · intro accounts tx rc incl ovr i ha hincl
    simp [getTxFees, List.getElem?_map, ha, hincl]

/-- C7 witness: a nonzero override of 3 is used (fee 3 with gas used
1), evaluated through the amended selection rule at concrete input. -/
theorem C7_gas_price_selection_witness :
    selectGasPrice (some 3) (some 5) 7 = 3 ∧
    (getTxFees ["S"] ⟨"S", 7⟩ ⟨9, 1, some 5⟩ none (some 3))[0]? =
      some (selectGasPrice (some 3) (some 5) 7 * 1) :=
  ⟨C7_gas_price_selection.1 3 (some 5) 7 (by decide),
   C7_gas_price_selection.2.2.2.2 ["S"] ⟨"S", 7⟩ ⟨9, 1, some 5⟩ none (some 3) 0 rfl
      (by decide)⟩

/-- C8: the claim says failures surface with distinguishable kinds,
with a lock-timeout kind when acquisition exhausts the retry budget.
On a concrete contended call the surfaced error is the unlock
primitive's not-acquired error, identical to the error surfaced for a
corrupt registry file, and it is neither the lock-contention error nor
any plugin-wrapped form of it, so the kinds are not distinguishable. -/
theorem C8_counterexample :
    (writeLibrariesToFile "l" [] true none ⟨some (FileData.jsonArr []), false⟩).res =
      Except.error JsError.notAcquired ∧
    (writeLibrariesToFile "l" [] true none ⟨some (FileData.jsonArr []), false⟩).res =
      (writeLibrariesToFile "l" [] false none
        ⟨some (FileData.corrupt "oops"), false⟩).res ∧
    JsError.notAcquired ≠ JsError.lockContention ∧
    JsError.notAcquired ≠ JsError.zkSyncSolcPlugin JsError.lockContention := by
  exact ⟨rfl, rfl, by decide, by decide⟩

/-- C8 amended: no failure is silently swallowed — every failing run
surfaces an error and no failing run returns success — but the kinds
are not distinguishable as the claim requires: a corrupt pre-lock read
and an exhausted lock retry budget both surface as the unlock
primitive's not-acquired error (the wrapped plugin error being
replaced by the finally block), while a failure under the lock
surfaces as the single plugin error kind wrapping its cause; a
fault-free run succeeds. -/
theorem C8_error_propagation (p : String) (libs E : List MissingLibrary) (raw : String) :
    (writeLibrariesToFile p libs false none ⟨some (FileData.corrupt raw), false⟩).res =
      Except.error JsError.notAcquired ∧
    (writeLibrariesToFile p libs true none ⟨some (FileData.jsonArr E), false⟩).res =
      Except.error JsError.notAcquired ∧
    (writeLibrariesToFile p libs false (some (FileData.corrupt raw))
        ⟨some (FileData.jsonArr E), false⟩).res =
      Except.error (JsError.zkSyncSolcPlugin JsError.jsonParse) ∧
    (writeLibrariesToFile p libs false none ⟨some (FileData.jsonArr E), false⟩).res =
      Except.ok () :=
  ⟨rfl, rfl, rfl, rfl⟩

/-- C9: the existence-ensuring step is idempotent: on a nonexistent
path it creates the empty-array file, running it again leaves exactly
that same state, and on any existing file it leaves the content
unchanged. -/
theorem C9_ensureExists_idempotent (p : String) (lk : Bool) :
    (getOrCreateLibraries p ⟨none, lk⟩).st.file = some (FileData.jsonArr []) ∧
    (getOrCreateLibraries p (getOrCreateLibraries p ⟨none, lk⟩).st).st =
      (getOrCreateLibraries p ⟨none, lk⟩).st ∧
    ∀ d : FileData, (getOrCreateLibraries p ⟨some d, lk⟩).st = ⟨some d, lk⟩ := by
  refine ⟨rfl, rfl, fun d => ?_⟩
  cases d <;> rfl

/-- C10: every `writeLibrariesToFile` call attempts exactly one lock
release, as its final operation, on every path — including the paths
where the lock was never acquired (corrupt pre-lock read, exhausted
lock retries), on which the unlock of the unheld lock fails and its
not-acquired error replaces the original error seen by the caller. -/
theorem C10_unconditional_single_unlock :
    (∀ (p : String) (libs : List MissingLibrary) (contended : Bool)
        (interfere : Option FileData) (s : St),
      ((writeLibrariesToFile p libs contended interfere s).trace.filter
        FsEvent.isLockRel).length = 1 ∧
      (writeLibrariesToFile p libs contended interfere s).trace.getLast? =
        some (FsEvent.lockRel p)) ∧
    (∀ (p : String) (libs : List MissingLibrary) (raw : String),
      (writeLibrariesToFile p libs false none ⟨some (FileData.corrupt raw), false⟩).res =
        Except.error JsError.notAcquired) ∧
    (∀ (p : String) (libs E : List MissingLibrary),
      (writeLibrariesToFile p libs true none ⟨some (FileData.jsonArr E), false⟩).res =
        Except.error JsError.notAcquired) := by
  refine ⟨?_, fun _ _ _ => rfl, fun _ _ _ => rfl⟩
  intro p libs contended interfere s
  rcases s with ⟨_ | (recs | raw), lk⟩ <;> cases lk <;> cases contended <;>
    rcases interfere with _ | (recs2 | raw2) <;> exact ⟨rfl, rfl⟩

end HardhatZkSync
